import Mathlib

/-!
Verification of the forecast-aggregation logic of the MSLP dashboard
(`src/main.py`). The dashboard loads ensemble-forecast CSV rows, derives an
absolute forecast timestamp per row, normalizes pressure units, filters by
ensemble membership and a latitude/longitude box, and aggregates pressure
values per timestamp (mean, median, quantiles) and per ensemble member.

All tabular operations are embedded shallowly: rows become a `Record`
structure, dataframes become `List Record`, pandas boolean-mask filtering
becomes `List.filter`, `groupby` becomes key extraction plus `dedup` and
sorting, and the pandas statistics (`mean`, `median`, `quantile` with the
default linear interpolation) become rational-valued functions on lists.
Timestamps are hours since the Unix epoch (`Int`); pressures, latitudes and
longitudes are rationals.
-/

namespace GenWeb

/-- The three source products combined by the dashboard
(`prefixes = ["gencast_mslp/", "gefs_mslp/", "ifs_mslp/"]`). -/
inductive Dataset : Type
  | Gencast
  | GEFS
  | IFS
  deriving DecidableEq, Repr

/-- Injective numeric code for a dataset, used as a sorting key component for
`groupby` (pandas sorts group keys). -/
def Dataset.code : Dataset → Nat
  | .Gencast => 0
  | .GEFS => 1
  | .IFS => 2

/-- The `Ensemble` column: an integer sample/member index for the ensemble
products, or the fixed sentinel `"IFS"` for the deterministic run
(`df['Ensemble'] = "IFS"` in `load_data`). -/
inductive EnsembleId : Type
  | num (n : Nat)
  | ifs
  deriving DecidableEq, Repr

/-- Injective numeric code for an ensemble identifier, used as a sorting key
component. -/
def EnsembleId.code : EnsembleId → Nat
  | .ifs => 0
  | .num n => n + 1

/-- One normalized row of the combined dataframe: the columns
`['Dataset', 'Ensemble', 'Forecast_Datetime', 'MSLP', 'Latitude', 'Longitude']`
selected at the end of `load_data`. `forecastTime` is in hours since the
Unix epoch; `mslp` is in the post-normalization unit. -/
structure Record : Type where
  dataset : Dataset
  ensemble : EnsembleId
  forecastTime : Int
  mslp : ℚ
  latitude : ℚ
  longitude : ℚ
  deriving DecidableEq, Repr

/-- One raw Gencast CSV row, with the columns `load_data` requires for the
Gencast branch: `Sample`, `Datetime` (the forecast base time, here in hours
since the Unix epoch), `Time_Step`, `MSLP` (raw unit), plus coordinates. -/
structure GencastRaw : Type where
  sample : Nat
  datetime : Int
  timeStep : Int
  mslp : ℚ
  latitude : ℚ
  longitude : ℚ
  deriving DecidableEq, Repr

/-- The Gencast branch of `load_data` applied to one row:
`Ensemble = Sample`,
`Forecast_Datetime = to_datetime(Datetime) + timedelta(hours=Time_Step * 12)`,
and `MSLP = MSLP / 1000` (the source's comment says "Convert to hPa"). -/
def loadGencastRow (r : GencastRaw) : Record :=
  { dataset := .Gencast
    ensemble := .num r.sample
    forecastTime := r.datetime + r.timeStep * 12
    mslp := r.mslp / 1000
    latitude := r.latitude
    longitude := r.longitude }

/-- The dataset-combination chain of `main.py` (lines 136-152): an
eight-way `if/elif` on which of the Gencast, GEFS and IFS dataframes loaded,
concatenating the available ones in the order Gencast, GEFS, IFS and
yielding `None` only when all three are missing. -/
def combineDatasets (g gf i : Option (List Record)) : Option (List Record) :=
  match g, gf, i with
  | some a, some b, some c => some (a ++ b ++ c)
  | some a, some b, none => some (a ++ b)
  | some a, none, some c => some (a ++ c)
  | none, some b, some c => some (b ++ c)
  | some a, none, none => some a
  | none, some b, none => some b
  | none, none, some c => some c
  | none, none, none => none

/-- The arithmetic mean of a list of rationals (pandas `Series.mean`);
`0` on the empty list, which never arises for the non-empty groups produced
by `groupby`. -/
def meanQ (xs : List ℚ) : ℚ := xs.sum / xs.length

/-- The pressure values of the records at one timestamp: the group that
`filtered_df.groupby('Forecast_Datetime')['MSLP']` forms at key `t`. -/
def groupVals (records : List Record) (t : Int) : List ℚ :=
  (records.filter (fun r => r.forecastTime = t)).map Record.mslp

/-- C1. The claim says Gencast normalization divides by 100 (Pa to hPa), so a
row with raw pressure 100500 Pa should yield 1005.0 hPa. The code
(`df['MSLP'] = df['MSLP'] / 1000`) divides by 1000, so that row yields
100.5, not 1005 — the code contradicts its own "Convert to hPa" comment and
the chart's hPa axis, since no mean-sea-level pressure is 100.5 hPa. -/
theorem gencast_unit_bug_eval :
    (loadGencastRow
      { sample := 0, datetime := 469236, timeStep := 0,
        mslp := 100500, latitude := 10, longitude := 110 }).mslp = 100.5 ∧
    ((100.5 : ℚ) ≠ 1005) := by
  constructor
  · norm_num [loadGencastRow]
  · norm_num

/-- C2. For every raw Gencast row, the derived `Forecast_Datetime` is exactly
`base_time + step_index * 12` hours, and the derivation is deterministic:
equal inputs give equal outputs. -/
theorem derive_forecast_time_correct (r : GencastRaw) :
    (loadGencastRow r).forecastTime = r.datetime + r.timeStep * 12 ∧
    (∀ r' : GencastRaw, r = r' → loadGencastRow r = loadGencastRow r') := by
  exact ⟨rfl, fun r' h => by rw [h]⟩

/-- Witness for C2 at the spec's example: base 2023-07-13T12:00
(469236 hours since the Unix epoch), step 2, 12-hour steps, giving
2023-07-14T12:00 (469260 hours). -/
theorem derive_forecast_time_correct_witness :
    (loadGencastRow
      { sample := 0, datetime := 469236, timeStep := 2,
        mslp := 100500, latitude := 10, longitude := 110 }).forecastTime
      = 469260 := by
  have h := (derive_forecast_time_correct
    { sample := 0, datetime := 469236, timeStep := 2,
      mslp := 100500, latitude := 10, longitude := 110 }).1
  rw [h]; norm_num

/-- C9. Grouping by timestamp is associative across dataset concatenation:
the group a timestamp gets from a concatenation of record lists is the
concatenation of the groups from each list, so any statistic of the combined
group equals that statistic of the recombined per-dataset groups. At the
spec's example — two datasets contributing one row each at the same
timestamp with pressures 1000 and 1008 hPa — the mean is 1004. -/
theorem grouping_concat_assoc :
    (∀ (a b : List Record) (t : Int),
      groupVals (a ++ b) t = groupVals a t ++ groupVals b t) ∧
    (∀ (a b : List Record) (t : Int),
      meanQ (groupVals (a ++ b) t) = meanQ (groupVals a t ++ groupVals b t)) ∧
    meanQ (groupVals
      ([{ dataset := .Gencast, ensemble := .num 0, forecastTime := 469236,
          mslp := 1000, latitude := 10, longitude := 110 }] ++
       [{ dataset := .GEFS, ensemble := .num 0, forecastTime := 469236,
          mslp := 1008, latitude := 10, longitude := 110 }]) 469236) = 1004 := by
  refine ⟨fun a b t => ?_, fun a b t => ?_, ?_⟩
  · simp [groupVals, List.filter_append]
  · simp [groupVals, List.filter_append]
  · norm_num [groupVals, meanQ, List.filter]

/-- C10. The combination step tolerates partial availability: the combined
record set is exactly the concatenation (in Gencast, GEFS, IFS order) of the
datasets that loaded, it is produced whenever at least one loaded, and the
no-data branch (`None`) is taken exactly when all three failed to load. -/
theorem combine_datasets_availability (g gf i : Option (List Record)) :
    (combineDatasets g gf i = none ↔ (g = none ∧ gf = none ∧ i = none)) ∧
    combineDatasets g gf i =
      (if g = none ∧ gf = none ∧ i = none then none
       else some (g.getD [] ++ gf.getD [] ++ i.getD [])) := by
  rcases g with _ | a <;> rcases gf with _ | b <;> rcases i with _ | c <;>
    simp [combineDatasets]

/-- Witness for C10: with only GEFS loaded, processing proceeds with exactly
the GEFS records. -/
theorem combine_datasets_availability_witness :
    combineDatasets none
      (some [{ dataset := .GEFS, ensemble := .num 0, forecastTime := 0,
               mslp := 1008, latitude := 10, longitude := 110 }]) none
      = some [{ dataset := .GEFS, ensemble := .num 0, forecastTime := 0,
                mslp := 1008, latitude := 10, longitude := 110 }] := by
  have h := (combine_datasets_availability none
    (some [{ dataset := .GEFS, ensemble := .num 0, forecastTime := 0,
             mslp := 1008, latitude := 10, longitude := 110 }]) none).2
  simpa using h

/-- The row predicate of the boolean-mask filter (`main.py` lines 185-187):
`df['Ensemble'].isin(selected_ensembles) & df['Latitude'].between(lat_min,
lat_max) & df['Longitude'].between(lon_min, lon_max)`. Pandas `between` is
inclusive on both bounds by default. -/
def inFilter (ids : List EnsembleId) (latMin latMax lonMin lonMax : ℚ)
    (r : Record) : Prop :=
  r.ensemble ∈ ids ∧ latMin ≤ r.latitude ∧ r.latitude ≤ latMax ∧
    lonMin ≤ r.longitude ∧ r.longitude ≤ lonMax

instance (ids : List EnsembleId) (latMin latMax lonMin lonMax : ℚ) :
    DecidablePred (inFilter ids latMin latMax lonMin lonMax) := fun r => by
  unfold inFilter; infer_instance

/-- `filtered_df`: the rows of the combined dataframe passing the boolean
mask, in their original order. -/
def filterRecords (records : List Record) (ids : List EnsembleId)
    (latMin latMax lonMin lonMax : ℚ) : List Record :=
  records.filter (fun r => decide (inFilter ids latMin latMax lonMin lonMax r))

/-- C4. The filter returns exactly the order-preserving subsequence of
records whose ensemble id is in the selected set and whose coordinates lie
in both closed intervals (bounds inclusive, so a record at exactly the
latitude minimum is retained); when nothing matches it returns the empty
list rather than an error. The embedding is a pure function of the input
list, so the input is never mutated. -/
theorem filter_subsequence_inclusive (records : List Record)
    (ids : List EnsembleId) (latMin latMax lonMin lonMax : ℚ) :
    (filterRecords records ids latMin latMax lonMin lonMax).Sublist records ∧
    (∀ r : Record,
      r ∈ filterRecords records ids latMin latMax lonMin lonMax ↔
        r ∈ records ∧ r.ensemble ∈ ids ∧ latMin ≤ r.latitude ∧
          r.latitude ≤ latMax ∧ lonMin ≤ r.longitude ∧ r.longitude ≤ lonMax) ∧
    ((∀ r ∈ records, ¬ inFilter ids latMin latMax lonMin lonMax r) →
      filterRecords records ids latMin latMax lonMin lonMax = []) := by
  refine ⟨List.filter_sublist _, fun r => ?_, fun hnone => ?_⟩
  · simp [filterRecords, List.mem_filter, inFilter]
  · rw [List.eq_nil_iff_forall_not_mem]
    intro r hr
    rw [filterRecords, List.mem_filter] at hr
    exact hnone r hr.1 (of_decide_eq_true hr.2)

/-- Witness for C4: a record sitting exactly at the latitude minimum of the
range is retained by the filter. -/
theorem filter_subsequence_inclusive_witness :
    ({ dataset := .Gencast, ensemble := .num 0, forecastTime := 469236,
       mslp := 1005, latitude := 5, longitude := 110 } : Record) ∈
      filterRecords
        [{ dataset := .Gencast, ensemble := .num 0, forecastTime := 469236,
           mslp := 1005, latitude := 5, longitude := 110 }]
        [.num 0] 5 25 100 125 := by
  exact ((filter_subsequence_inclusive
    [{ dataset := .Gencast, ensemble := .num 0, forecastTime := 469236,
       mslp := 1005, latitude := 5, longitude := 110 }]
    [.num 0] 5 25 100 125).2.1 _).mpr
    ⟨by simp, by simp, by norm_num, by norm_num, by norm_num, by norm_num⟩

/-- The recognized statistic columns of `stats_df`
(`stats_df.columns = ['Forecast_Datetime', 'Mean', 'Median',
'25th Percentile', '75th Percentile']`, minus the timestamp key). -/
def statColumns : List String := ["Mean", "Median", "25th Percentile", "75th Percentile"]

/-- The sort key used when two statistics are selected:
`sorted(selected_stats, key=lambda x: x if x != '25th Percentile' else 'z')`. -/
def statSortKey (s : String) : String := if s = "25th Percentile" then "z" else s

/-- Comparison of selected statistics by their sort key. -/
def statLE (a b : String) : Prop := statSortKey a ≤ statSortKey b

instance : DecidableRel statLE := fun a b => by unfold statLE; infer_instance

/-- The statistic traces added by the time-series plotting loop
(`main.py` lines 209-231): with two selected statistics they are sorted by
`statSortKey` and each is plotted only `if stat in stats_df.columns`; with
one selected statistic it is plotted under the same membership check; with
zero (or more than two, which the widget prevents) nothing is plotted. A
statistic failing the membership check is skipped with no error raised. -/
def plottedStats (selected : List String) : List String :=
  if selected.length = 2 then
    (List.insertionSort statLE selected).filter (fun s => decide (s ∈ statColumns))
  else if selected.length = 1 then
    selected.filter (fun s => decide (s ∈ statColumns))
  else []

/-- Counterexample to C3: requesting the unrecognized statistic `"Max"`
produces no trace and no error — the plotting loop's `if stat in
stats_df.columns` guard silently drops it; there is no `UnsupportedStatistic`
failure path anywhere in the code (the embedding's return type has no error
alternative). -/
theorem unsupported_stat_silently_dropped :
    plottedStats ["Max"] = [] := by
  decide

/-- C3 as amended: the plotting loop never fails on an unrecognized
statistic; instead every plotted statistic is both recognized (a member of
`statColumns`) and requested, so unrecognized requests are silently dropped
rather than rejected with `UnsupportedStatistic`. -/
theorem plotted_stats_recognized_only (s : String) (selected : List String)
    (h : s ∈ plottedStats selected) : s ∈ statColumns ∧ s ∈ selected := by
  unfold plottedStats at h
  split_ifs at h with h2 h1
  · rw [List.mem_filter] at h
    exact ⟨of_decide_eq_true h.2,
      ((List.perm_insertionSort statLE selected).mem_iff).mp h.1⟩
  · rw [List.mem_filter] at h
    exact ⟨of_decide_eq_true h.2, h.1⟩
  · simp at h

/-- Witness for the amended C3: the recognized statistic `"Mean"`, when
requested alone, is plotted, and is both recognized and requested. -/
theorem plotted_stats_recognized_only_witness :
    ("Mean" : String) ∈ statColumns ∧ ("Mean" : String) ∈ ["Mean"] :=
  plotted_stats_recognized_only "Mean" ["Mean"] (by decide)

/-- Ascending sort of a group's values, the first step of both the pandas
`median` and `quantile` computations. -/
def sortVals (xs : List ℚ) : List ℚ := List.insertionSort (· ≤ ·) xs

/-- Pandas `Series.median` on an already-sorted list: the middle element for
an odd count, the average of the two middle elements for an even count. -/
def medianSorted (s : List ℚ) : ℚ :=
  if s.length % 2 = 1 then s.getD (s.length / 2) 0
  else (s.getD (s.length / 2 - 1) 0 + s.getD (s.length / 2) 0) / 2

/-- Pandas `Series.median`. -/
def medianQ (xs : List ℚ) : ℚ := medianSorted (sortVals xs)

/-- Pandas `Series.quantile(p)` with the default `interpolation='linear'`
(the "type 7" method) on an already-sorted list: with `h = (n-1)*p`,
`j = ⌊h⌋` and `g = h - j`, the result is `s[j] + g * (s[j+1] - s[j])`
(the `s[j+1]` term has weight 0 whenever it would be out of range). -/
def quantileSorted (s : List ℚ) (p : ℚ) : ℚ :=
  let hq : ℚ := ((s.length : ℚ) - 1) * p
  let j : ℕ := (⌊hq⌋).toNat
  let g : ℚ := hq - (j : ℚ)
  let a := s.getD j 0
  let b := s.getD (j + 1) a
  a + g * (b - a)

/-- Pandas `Series.quantile(p)` (linear interpolation), as used by the
`lambda x: x.quantile(0.25)` and `lambda x: x.quantile(0.75)` aggregates of
`stats_df`. -/
def quantileQ (xs : List ℚ) (p : ℚ) : ℚ := quantileSorted (sortVals xs) p

lemma sortVals_ne_nil {xs : List ℚ} (hne : xs ≠ []) : sortVals xs ≠ [] := by
  intro h0
  apply hne
  have hp := List.perm_insertionSort (fun a b : ℚ => a ≤ b) xs
  rw [sortVals] at h0
  rw [h0] at hp
  exact hp.symm.eq_nil

lemma quantileSorted_half_eq_medianSorted (s : List ℚ) (hne : s ≠ []) :
    quantileSorted s (1/2) = medianSorted s := by
  have hn0 : s.length ≠ 0 := by simpa using hne
  simp only [quantileSorted, medianSorted]
  rcases Nat.even_or_odd s.length with he | ho
  · -- even length: n = 2*m with m ≥ 1
    obtain ⟨m, hm⟩ := he
    have hm2 : s.length = 2 * m := by omega
    have hm1 : 1 ≤ m := by omega
    rw [hm2]
    have e1 : (((2 * m : ℕ) : ℚ) - 1) * (1/2) = (m : ℚ) - 1 + 1/2 := by
      push_cast; ring
    rw [e1]
    have e2 : ⌊(m : ℚ) - 1 + 1/2⌋ = (m : ℤ) - 1 := by
      rw [Int.floor_eq_iff]
      constructor <;> push_cast <;> linarith
    rw [e2]
    have e3 : ((m : ℤ) - 1).toNat = m - 1 := by omega
    rw [e3]
    have e4 : ((m - 1 : ℕ) : ℚ) = (m : ℚ) - 1 := by
      rw [Nat.cast_sub hm1]; norm_num
    rw [e4]
    have e5 : m - 1 + 1 = m := by omega
    rw [e5]
    have hmlt : m < s.length := by omega
    have hm1lt : m - 1 < s.length := by omega
    rw [List.getD_eq_getElem s _ hmlt, List.getD_eq_getElem s _ hm1lt]
    have d1 : 2 * m / 2 = m := by omega
    have d2 : ¬(2 * m % 2 = 1) := by omega
    rw [if_neg d2, d1]
    rw [List.getD_eq_getElem s _ hm1lt, List.getD_eq_getElem s _ hmlt]
    ring
  · -- odd length: n = 2*m + 1
    obtain ⟨m, hm⟩ := ho
    rw [hm]
    have e1 : (((2 * m + 1 : ℕ) : ℚ) - 1) * (1/2) = (m : ℚ) := by
      push_cast; ring
    rw [e1, Int.floor_natCast]
    have e3 : ((m : ℤ)).toNat = m := by omega
    rw [e3]
    have d1 : (2 * m + 1) % 2 = 1 := by omega
    have d2 : (2 * m + 1) / 2 = m := by omega
    rw [if_pos d1, d2]
    ring

lemma quantileQ_half_eq_medianQ (xs : List ℚ) (hne : xs ≠ []) :
    quantileQ xs (1/2) = medianQ xs :=
  quantileSorted_half_eq_medianSorted (sortVals xs) (sortVals_ne_nil hne)

lemma meanQ_singleton (v : ℚ) : meanQ [v] = v := by
  norm_num [meanQ]

lemma sortVals_singleton (v : ℚ) : sortVals [v] = [v] := rfl

lemma medianQ_singleton (v : ℚ) : medianQ [v] = v := by
  rw [medianQ, sortVals_singleton]
  norm_num [medianSorted]

lemma quantileQ_singleton (v p : ℚ) : quantileQ [v] p = v := by
  rw [quantileQ, sortVals_singleton]
  simp only [quantileSorted, List.length_singleton]
  norm_num

/-- C5. On any non-empty timestamp group, the 50th percentile — pandas
`quantile(1/2)` with linear ("type 7") interpolation, the same routine the
source's 25th/75th percentile aggregates call — coincides with the `median`
aggregate of the same group. -/
theorem percentile50_eq_median (records : List Record) (t : Int)
    (h : groupVals records t ≠ []) :
    quantileQ (groupVals records t) (1/2) = medianQ (groupVals records t) :=
  quantileQ_half_eq_medianQ (groupVals records t) h

/-- Witness for C5 on a concrete two-record group with pressures 1000 and
1008 at one timestamp. -/
theorem percentile50_eq_median_witness :
    quantileQ (groupVals
      [{ dataset := .Gencast, ensemble := .num 0, forecastTime := 469236,
         mslp := 1000, latitude := 10, longitude := 110 },
       { dataset := .GEFS, ensemble := .num 1, forecastTime := 469236,
         mslp := 1008, latitude := 11, longitude := 111 }] 469236) (1/2) =
    medianQ (groupVals
      [{ dataset := .Gencast, ensemble := .num 0, forecastTime := 469236,
         mslp := 1000, latitude := 10, longitude := 110 },
       { dataset := .GEFS, ensemble := .num 1, forecastTime := 469236,
         mslp := 1008, latitude := 11, longitude := 111 }] 469236) :=
  percentile50_eq_median _ 469236 (by simp [groupVals, List.filter])

/-- C6. On a singleton group — exactly one record at a timestamp — every
statistic the code computes (mean, median, and any percentile `p ∈ [0,1]`
via linear interpolation) returns that record's pressure value. -/
theorem singleton_group_stats (records : List Record) (t : Int) (v p : ℚ)
    (hg : groupVals records t = [v]) (hp0 : 0 ≤ p) (hp1 : p ≤ 1) :
    meanQ (groupVals records t) = v ∧ medianQ (groupVals records t) = v ∧
      quantileQ (groupVals records t) p = v := by
  rw [hg]
  exact ⟨meanQ_singleton v, medianQ_singleton v, quantileQ_singleton v p⟩

/-- Witness for C6 on a concrete singleton group at percentile 1/4. -/
theorem singleton_group_stats_witness :
    meanQ (groupVals
      [{ dataset := .IFS, ensemble := .ifs, forecastTime := 469236,
         mslp := 1005, latitude := 10, longitude := 110 }] 469236) = 1005 ∧
    medianQ (groupVals
      [{ dataset := .IFS, ensemble := .ifs, forecastTime := 469236,
         mslp := 1005, latitude := 10, longitude := 110 }] 469236) = 1005 ∧
    quantileQ (groupVals
      [{ dataset := .IFS, ensemble := .ifs, forecastTime := 469236,
         mslp := 1005, latitude := 10, longitude := 110 }] 469236) (1/4) = 1005 :=
  singleton_group_stats _ 469236 1005 (1/4)
    (by simp [groupVals, List.filter]) (by norm_num) (by norm_num)

lemma pairwise_conj {α : Type _} {R S : α → α → Prop} :
    ∀ {l : List α}, l.Pairwise R → l.Pairwise S →
      l.Pairwise (fun a b => R a b ∧ S a b)
  | _, .nil, .nil => .nil
  | _, .cons hR hRl, .cons hS hSl =>
      .cons (fun b hb => ⟨hR b hb, hS b hb⟩) (pairwise_conj hRl hSl)

lemma pairwise_mono_mem {α : Type _} {R S : α → α → Prop} :
    ∀ {l : List α}, (∀ a ∈ l, ∀ b ∈ l, R a b → S a b) →
      l.Pairwise R → l.Pairwise S
  | _, _, .nil => .nil
  | a :: l, h, .cons hR hRl =>
      .cons (fun b hb => h a (by simp) b (by simp [hb]) (hR b hb))
        (pairwise_mono_mem (fun x hx y hy => h x (by simp [hx]) y (by simp [hy]))
          hRl)

/-- The `groupby` key of a record for the per-member series:
`(Forecast_Datetime, Ensemble, Dataset)`, with ensemble and dataset mapped
through their injective numeric codes. -/
def recKey (r : Record) : Int × ℕ × ℕ :=
  (r.forecastTime, r.ensemble.code, r.dataset.code)

/-- Lexicographic comparison of `groupby` keys: pandas `groupby(sort=True)`
orders the groups by their key tuples. -/
def keyLE (a b : Int × ℕ × ℕ) : Prop :=
  a.1 < b.1 ∨ (a.1 = b.1 ∧ (a.2.1 < b.2.1 ∨ (a.2.1 = b.2.1 ∧ a.2.2 ≤ b.2.2)))

instance : DecidableRel keyLE := fun a b => by unfold keyLE; infer_instance

instance : IsTotal (Int × ℕ × ℕ) keyLE := ⟨by intro a b; unfold keyLE; omega⟩

instance : IsTrans (Int × ℕ × ℕ) keyLE := ⟨by intro a b c; unfold keyLE; omega⟩

/-- The distinct `(Forecast_Datetime, Ensemble, Dataset)` keys of the
records, in the sorted order `groupby` emits them. -/
def groupKeys (records : List Record) : List (Int × ℕ × ℕ) :=
  List.insertionSort keyLE ((records.map recKey).dedup)

/-- The arithmetic mean of `MSLP` over the records with a given key: the
`['MSLP'].mean()` aggregate of one group. -/
def groupMean (records : List Record) (k : Int × ℕ × ℕ) : ℚ :=
  meanQ ((records.filter (fun r => decide (recKey r = k))).map Record.mslp)

/-- `sample_df` (`main.py` line 193):
`filtered_df.groupby(['Forecast_Datetime', 'Ensemble', 'Dataset'])['MSLP']
.mean().reset_index()` — one row per distinct key, in sorted key order,
carrying the group's mean pressure. -/
def perMemberSeries (records : List Record) : List ((Int × ℕ × ℕ) × ℚ) :=
  (groupKeys records).map (fun k => (k, groupMean records k))

/-- C7. `perMemberSeries` groups by `(forecast_time, ensemble_id, dataset)`
and takes the arithmetic mean of the pressure within each (non-empty) group;
and restricting its output to any one `(ensemble_id, dataset)` pair leaves
the timestamps strictly increasing — sorted ascending with no duplicates. -/
theorem per_member_series_sorted (records : List Record) (e : EnsembleId)
    (d : Dataset) :
    (∀ x ∈ perMemberSeries records,
      x.2 = meanQ ((records.filter
        (fun r => decide (recKey r = x.1))).map Record.mslp) ∧
      ∃ r ∈ records, recKey r = x.1) ∧
    List.Pairwise (· < ·)
      (((perMemberSeries records).filter
          (fun x => decide (x.1.2.1 = e.code ∧ x.1.2.2 = d.code))).map
        (fun x => x.1.1)) := by
  constructor
  · intro x hx
    rw [perMemberSeries, List.mem_map] at hx
    obtain ⟨k, hk, hxk⟩ := hx
    subst hxk
    refine ⟨rfl, ?_⟩
    rw [groupKeys] at hk
    rw [(List.perm_insertionSort keyLE _).mem_iff, List.mem_dedup,
      List.mem_map] at hk
    obtain ⟨r, hr, hrk⟩ := hk
    exact ⟨r, hr, hrk⟩
  · have hsorted : (groupKeys records).Pairwise keyLE :=
      List.sorted_insertionSort keyLE _
    have hnodup : (groupKeys records).Pairwise (· ≠ ·) :=
      ((List.perm_insertionSort keyLE _).nodup_iff).mpr
        (List.nodup_dedup _)
    have hp := pairwise_conj hsorted hnodup
    have hmap : (perMemberSeries records).Pairwise
        (fun x y => keyLE x.1 y.1 ∧ x.1 ≠ y.1) := by
      rw [perMemberSeries]
      exact List.pairwise_map.mpr hp
    have hfil : (((perMemberSeries records).filter
        (fun x => decide (x.1.2.1 = e.code ∧ x.1.2.2 = d.code)))).Pairwise
        (fun x y => keyLE x.1 y.1 ∧ x.1 ≠ y.1) :=
      hmap.sublist (List.filter_sublist _)
    rw [List.pairwise_map]
    refine pairwise_mono_mem (fun x hx y hy hxy => ?_) hfil
    simp only [List.mem_filter, decide_eq_true_eq] at hx hy
    have hxp := hx.2
    have hyp := hy.2
    obtain ⟨hle, hne⟩ := hxy
    rcases x with ⟨⟨t1, e1, d1⟩, v1⟩
    rcases y with ⟨⟨t2, e2, d2⟩, v2⟩
    obtain ⟨hex, hdx⟩ := hxp
    obtain ⟨hey, hdy⟩ := hyp
    simp only [keyLE] at hle
    simp only [ne_eq, Prod.mk.injEq, not_and] at hne
    simp only at hex hdx hey hdy ⊢
    omega

/-- Witness for C7: two Gencast rows of one member at successive timestamps
produce a per-member series whose timestamps, restricted to that member,
are strictly increasing. -/
theorem per_member_series_sorted_witness :
    List.Pairwise (· < ·)
      (((perMemberSeries
          [{ dataset := .Gencast, ensemble := .num 0, forecastTime := 469236,
             mslp := 1005, latitude := 10, longitude := 110 },
           { dataset := .Gencast, ensemble := .num 0, forecastTime := 469248,
             mslp := 1003, latitude := 11, longitude := 111 }]).filter
          (fun x => decide (x.1.2.1 = (EnsembleId.num 0).code ∧
            x.1.2.2 = Dataset.Gencast.code))).map
        (fun x => x.1.1)) :=
  (per_member_series_sorted
    [{ dataset := .Gencast, ensemble := .num 0, forecastTime := 469236,
       mslp := 1005, latitude := 10, longitude := 110 },
     { dataset := .Gencast, ensemble := .num 0, forecastTime := 469248,
       mslp := 1003, latitude := 11, longitude := 111 }]
    (.num 0) .Gencast).2

/-- Ordering of records by forecast timestamp, the comparison behind
`sort_values('Forecast_Datetime')`. -/
def timeLE (a b : Record) : Prop := a.forecastTime ≤ b.forecastTime

instance : DecidableRel timeLE := fun a b => by unfold timeLE; infer_instance

instance : IsTotal Record timeLE := ⟨fun _ _ => Int.le_total _ _⟩

instance : IsTrans Record timeLE := ⟨fun _ _ _ hab hbc => le_trans hab hbc⟩

/-- The informational signal of the map-plot loop: a trajectory with too few
distinct timestamps is reported (`st.warning`) instead of drawn. -/
inductive Signal : Type
  | insufficientPoints
  deriving DecidableEq, Repr

/-- One trajectory's rows, as the map loop builds them: the records of one
`(Ensemble, Dataset)` pair, sorted by `Forecast_Datetime`
(`map_df[(map_df['Ensemble'] == ensemble) & (map_df['Dataset'] == dataset)]
.sort_values('Forecast_Datetime')`). -/
def trajRecords (records : List Record) (e : EnsembleId) (d : Dataset) :
    List Record :=
  List.insertionSort timeLE
    (records.filter (fun r => decide (r.ensemble = e ∧ r.dataset = d)))

/-- The map-plot decision for one trajectory (`main.py` lines 248-267): a
line trace with the time-ordered points when
`len(ensemble_data['Forecast_Datetime'].unique()) > 1`, otherwise the
insufficient-points warning branch. -/
def trajectoryGeometry (records : List Record) (e : EnsembleId) (d : Dataset) :
    Except Signal (List Record) :=
  if 1 < ((trajRecords records e d).map Record.forecastTime).dedup.length
  then .ok (trajRecords records e d)
  else .error .insufficientPoints

/-- C8. A trajectory with fewer than 2 distinct timestamps yields the
`InsufficientPoints` signal instead of a degenerate single-point path, and a
trajectory with 2 or more distinct timestamps yields its points — exactly
the records of that `(ensemble, dataset)` pair — ordered by timestamp. -/
theorem trajectory_geometry_insufficient (records : List Record)
    (e : EnsembleId) (d : Dataset) :
    (((trajRecords records e d).map Record.forecastTime).dedup.length < 2 →
      trajectoryGeometry records e d = .error .insufficientPoints) ∧
    (2 ≤ ((trajRecords records e d).map Record.forecastTime).dedup.length →
      trajectoryGeometry records e d = .ok (trajRecords records e d) ∧
      (trajRecords records e d).Perm
        (records.filter (fun r => decide (r.ensemble = e ∧ r.dataset = d))) ∧
      ((trajRecords records e d).map Record.forecastTime).Pairwise (· ≤ ·)) := by
  constructor
  · intro hlt
    rw [trajectoryGeometry, if_neg (by omega)]
  · intro hge
    refine ⟨by rw [trajectoryGeometry, if_pos (by omega)], ?_, ?_⟩
    · exact List.perm_insertionSort timeLE _
    · rw [List.pairwise_map]
      exact List.sorted_insertionSort timeLE _

/-- Witness for C8: a single-record trajectory (one distinct timestamp)
yields the `InsufficientPoints` signal. -/
theorem trajectory_geometry_insufficient_witness :
    trajectoryGeometry
      [{ dataset := .IFS, ensemble := .ifs, forecastTime := 469236,
         mslp := 1005, latitude := 10, longitude := 110 }] .ifs .IFS
      = .error .insufficientPoints :=
  (trajectory_geometry_insufficient
    [{ dataset := .IFS, ensemble := .ifs, forecastTime := 469236,
       mslp := 1005, latitude := 10, longitude := 110 }] .ifs .IFS).1
    (by decide)

end GenWeb
